import Mathlib

/-!
# ModRuby bridge (src/src/ruby.cpp): embedding and checked properties

The C++ file drives an embedded Ruby VM.  The VM itself is outside the
repository, so every VM primitive the bridge calls is a field of the record
`VM` (an arbitrary, deterministic VM over an abstract internal state `W`), or,
where the Ruby C API fixes the behaviour (`rb_protect`, `rb_equal`,
`rb_ary_push`, `rb_ary_delete`, the class and text of `nil`), a definition
that follows the C API.  The bridge functions are translated one for one and
keep their C++ names.

C++ exceptions are the `Except.error` branch of the returned value.  The
variadic `(int n, ...)` argument lists are `List VALUE`, `n` being the length.
`const char*` arguments and the `std::string` members are `String`.
-/

namespace ruby

/-! ## VM values -/

/-- A VM value word.  `Qfalse` is the zero word; `ref` stands for every word
that is not one of the three special constants named here. -/
inductive VALUE
  | Qfalse
  | Qtrue
  | Qnil
  | ref (addr : Nat)
  deriving DecidableEq, Repr

open VALUE

/-- C truth value of a `VALUE` word (`return ret;` in a function returning
`bool`): only the zero word, `Qfalse`, converts to `false`. -/
def VALUE.toBool : VALUE → Bool
  | Qfalse => false
  | _ => true

/-- NIL_P of the C API. -/
def NIL_P (v : VALUE) : Bool := decide (v = Qnil)

/-- Method identifiers: `rb_intern` maps a name to its identifier. -/
abbrev ID := String

/-- Interning of a method name. -/
def rb_intern (name : String) : ID := name

/-- Outcome of running VM code: a value, or a raised exception object. -/
abbrev Outcome := Except VALUE VALUE

/-- The embedded VM, as far as the bridge calls into it.  `W` is the VM's own
state; every primitive that runs VM code returns the new state as well, also
when it raises. -/
structure VM (W : Type) where
  /-- Result of dispatching `a == b` inside the VM. -/
  eq : W → VALUE → VALUE → Bool
  /-- Text read by `RSTRING_PTR (rb_class_path (CLASS_OF v))` for `v = ref a`. -/
  class_path : W → Nat → String
  /-- Text read by `RSTRING_PTR (rb_obj_as_string v)` for `v = ref a`. -/
  to_s : W → Nat → String
  /-- Texts of the entries of the array returned by `v.backtrace`. -/
  backtrace : W → VALUE → List String
  /-- Lookup of a class by its path (raises for an unknown path). -/
  rb_path2class : W → String → Outcome × W
  /-- Instantiation: `rb_class_new_instance (n, argv, klass)`. -/
  rb_class_new_instance : W → List VALUE → VALUE → Outcome × W
  /-- Dynamic dispatch: `rb_funcall2 (recv, id, n, argv)`. -/
  rb_funcall2 : W → VALUE → ID → List VALUE → Outcome × W
  /-- The require primitive. -/
  rb_require : W → String → Outcome × W
  /-- The load primitive wrapped by `rb_load_protect`. -/
  rb_load : W → String → Int → Outcome × W

/-- Calls the bridge makes to the VM's lifecycle and GC-root API, recorded in
order. -/
inductive VMCall
  | ruby_sysinit
  | ruby_init_stack
  | ruby_init
  | ruby_init_loadpath
  | ruby_process_options
  | rb_enc_find_index (name : String)
  | rb_define_module (name : String)
  | rb_const_set (name : String)
  | rb_require (name : String)
  | ruby_script (name : String)
  | ruby_cleanup (code : Int)
  | rb_ary_new
  | rb_gc_register_address
  | rb_gc_unregister_address
  deriving DecidableEq, Repr

/-- Process state: the VM's own state, the VM global `$!`, whether the calling
thread holds the GVL, the statics of ruby.cpp (`Objects::singleton`,
`Objects::objects`, `running`), the lifecycle calls made so far, and what was
written to standard output. -/
structure State (W : Type) where
  world : W
  errinfo : VALUE
  has_gvl : Bool
  singleton : Bool
  objects : List VALUE
  running : Bool
  vm_log : List VMCall
  stdout : String

/-- The tag `rb_protect` stores in its state argument when the protected
function raised (TAG_RAISE). -/
def TAG_RAISE : Int := 6

/-- The C API `rb_equal`: identical words are equal without dispatch,
otherwise the VM's `==` decides. -/
def rb_equal {W : Type} (vm : VM W) (w : W) (a b : VALUE) : Bool :=
  if a = b then true else vm.eq w a b

/-- The C API `rb_protect (func, arg, &state)`: runs `func arg`; when it
raises, the exception becomes `$!`, the state is non-zero and the result is
`Qnil`. -/
def rb_protect {W α : Type} (func : α → W → Outcome × W) (arg : α) (s : State W) :
    VALUE × Int × State W :=
  match func arg s.world with
  | (.ok v, w) => (v, 0, { s with world := w })
  | (.error exc, w) => (Qnil, TAG_RAISE, { s with world := w, errinfo := exc })

/-- The C API `rb_thread_call_with_gvl`: runs `func` with the GVL acquired and
releases it afterwards. -/
def rb_thread_call_with_gvl {W β : Type} (func : State W → β × State W) (s : State W) :
    β × State W :=
  let r := func { s with has_gvl := true }
  (r.1, { r.2 with has_gvl := s.has_gvl })

/-- The struct `ProtectCallContext`, output fields. -/
structure ProtectCallContext where
  error : Int
  result : VALUE

/-- Anonymous-namespace `protect_with_gvl`. -/
def protect_with_gvl {W α : Type} (func : α → W → Outcome × W) (arg : α) (s : State W) :
    ProtectCallContext × State W :=
  let r := rb_protect func arg s
  ({ error := r.2.1, result := r.1 }, r.2.2)

/-- Anonymous-namespace `call_with_protect`: result and error flag. -/
def call_with_protect {W α : Type} (func : α → W → Outcome × W) (arg : α) (s : State W) :
    VALUE × Int × State W :=
  if s.has_gvl then
    let r := rb_protect func arg s
    (r.1, r.2.1, r.2.2)
  else
    let r := rb_thread_call_with_gvl (protect_with_gvl func arg) s
    (r.1.result, r.1.error, r.2)

/-- The C API `rb_load_protect`: `rb_load` under the VM's own error trap. -/
def rb_load_protect {W : Type} (vm : VM W) (filename : String) (anonymous : Int)
    (s : State W) : Int × State W :=
  match vm.rb_load s.world filename anonymous with
  | (.ok _, w) => (0, { s with world := w })
  | (.error exc, w) => (TAG_RAISE, { s with world := w, errinfo := exc })

/-- Anonymous-namespace `load_with_gvl`; the returned number is `ctx->error`. -/
def load_with_gvl {W : Type} (vm : VM W) (filename : String) (anonymous : Int)
    (s : State W) : Int × State W :=
  rb_load_protect vm filename anonymous s

/-- Anonymous-namespace `perform_with_gvl`. -/
def perform_with_gvl {W β : Type} (func : State W → β × State W) (s : State W) :
    β × State W :=
  if s.has_gvl then func s else rb_thread_call_with_gvl func s

/-! ## Memory management: the object registry -/

/-- The C API `rb_ary_push` on the registry array. -/
def rb_ary_push (ary : List VALUE) (item : VALUE) : List VALUE := ary ++ [item]

/-- The C API `rb_ary_delete` (Array#delete): every element `e` with
`rb_equal (e, item)` is dropped, the others keep their order. -/
def rb_ary_delete {W : Type} (vm : VM W) (w : W) (ary : List VALUE) (item : VALUE) :
    List VALUE :=
  ary.filter (fun e => !rb_equal vm w e item)

/-- The constructor `Objects::Objects`. -/
def Objects.ctor {W : Type} (s : State W) : State W :=
  { s with objects := [],
           vm_log := s.vm_log ++ [VMCall.rb_ary_new, VMCall.rb_gc_register_address] }

/-- The destructor `Objects::~Objects`. -/
def Objects.dtor {W : Type} (s : State W) : State W :=
  { s with vm_log := s.vm_log ++ [VMCall.rb_gc_unregister_address] }

/-- The accessor `Objects::instance`: creates the singleton on first use. -/
def Objects.instance_ {W : Type} (s : State W) : State W :=
  if s.singleton = false then { Objects.ctor s with singleton := true } else s

/-- The member `Objects::register_object`. -/
def Objects.register_object {W : Type} (object : VALUE) (s : State W) : State W :=
  { s with objects := rb_ary_push s.objects object }

/-- The member `Objects::free_object`. -/
def Objects.free_object {W : Type} (vm : VM W) (object : VALUE) (s : State W) : State W :=
  { s with objects := rb_ary_delete vm s.world s.objects object }

/-- The static member `Objects::free_all`. -/
def Objects.free_all {W : Type} (s : State W) : State W :=
  if s.singleton then { Objects.dtor s with singleton := false } else s

/-- The free function `ruby::register_object`. -/
def register_object {W : Type} (object : VALUE) (s : State W) : State W :=
  Objects.register_object object (Objects.instance_ s)

/-- The free function `ruby::free_object`. -/
def free_object {W : Type} (vm : VM W) (object : VALUE) (s : State W) : State W :=
  Objects.free_object vm object (Objects.instance_ s)

/-- The free function `ruby::free_all`. -/
def free_all {W : Type} (s : State W) : State W := Objects.free_all s

/-! ## VM routines -/

/-- The function `ruby::startup`. -/
def startup {W : Type} (script_name : String) (s : State W) : State W :=
  if s.running then s
  else
    { s with
      vm_log := s.vm_log ++
        [VMCall.ruby_sysinit, VMCall.ruby_init_stack, VMCall.ruby_init,
         VMCall.ruby_init_loadpath, VMCall.ruby_process_options,
         VMCall.rb_enc_find_index "encdb", VMCall.rb_define_module "Gem",
         VMCall.rb_const_set "Enable", VMCall.rb_require "rubygems",
         VMCall.ruby_script script_name],
      running := true }

/-- The function `ruby::shutdown`. -/
def shutdown {W : Type} (_exit_code : Int) (s : State W) : State W :=
  let s1 := free_all s
  let s2 := { s1 with vm_log := s1.vm_log ++ [VMCall.ruby_cleanup 0] }
  if s2.running = false then s2
  else { s2 with running := false }

/-! ## Exceptions -/

/-- The class `ruby::Exception`: its three `std::string` members. -/
structure Exception where
  _msg : String
  _backtrace : String
  _type : String
  deriving DecidableEq, Repr

/-- Modelled from the spec: the default argument of the constructor, which is
declared in ruby.hpp, a header that is not among the source files.  The spec's record
has an empty message when the constructor supplied none, and the constructor
tests its argument against NULL, so `Exception e;` passes the NULL pointer. -/
def Exception.default_msg : Option String := none

/-- The constructor `Exception::Exception (const char* msg)`; `none` is the
NULL pointer. -/
def Exception.ctor (msg : Option String) : Exception :=
  let e : Exception := { _msg := "", _backtrace := "", _type := "" }
  match msg with
  | some m => { e with _msg := m }
  | none => e

/-- Accessor `Exception::type`. -/
def Exception.type (e : Exception) : String := e._type

/-- Accessor `Exception::what`. -/
def Exception.what (e : Exception) : String := e._msg

/-- Accessor `Exception::stackdump`. -/
def Exception.stackdump (e : Exception) : String := e._backtrace

/-- The C API `rb_gv_get ("$!")`. -/
def rb_gv_get_errinfo {W : Type} (s : State W) : VALUE := s.errinfo

/-- Text read by `RSTRING_PTR (rb_class_path (CLASS_OF (v)))`.  The classes of
the special constants are fixed by the VM: `nil` is the instance of NilClass. -/
def rb_class_path_of {W : Type} (vm : VM W) (w : W) : VALUE → String
  | Qnil => "NilClass"
  | Qtrue => "TrueClass"
  | Qfalse => "FalseClass"
  | ref a => vm.class_path w a

/-- Text read by `RSTRING_PTR (rb_obj_as_string (v))`.  For the special
constants it is fixed by the VM: `nil.to_s` is the empty string. -/
def rb_obj_as_string {W : Type} (vm : VM W) (w : W) : VALUE → String
  | Qnil => ""
  | Qtrue => "true"
  | Qfalse => "false"
  | ref a => vm.to_s w a

/-- The member `Exception::backtrace`: converts the VM's current exception. -/
def Exception.backtrace {W : Type} (vm : VM W) (s : State W) (e : Exception) : Exception :=
  let e1 := { e with _backtrace := "" }
  let exception_instance := rb_gv_get_errinfo s
  let klass := rb_class_path_of vm s.world exception_instance
  let e2 := { e1 with _backtrace := e1._backtrace ++ ("Type    : " ++ klass ++ "\n") }
  let e3 := { e2 with _type := klass }
  let e4 := { e3 with _backtrace := e3._backtrace ++ klass }
  let message := rb_obj_as_string vm s.world exception_instance
  let e5 := { e4 with _backtrace := e4._backtrace ++ ("Message : " ++ message ++ "\n") }
  if NIL_P exception_instance = false then
    let ary := vm.backtrace s.world exception_instance
    { e5 with
      _backtrace := ary.foldl (fun bt f => bt ++ ("From    : " ++ f ++ "\n")) e5._backtrace }
  else e5

/-! ## Function calls -/

/-- The struct `Arguments`: receiver, method identifier, arguments. -/
structure Arguments where
  recv : VALUE
  id : ID
  argv : List VALUE

/-- The function `ruby::method_wrap`. -/
def method_wrap {W : Type} (vm : VM W) (a : Arguments) (w : W) : Outcome × W :=
  vm.rb_funcall2 w a.recv a.id a.argv

/-- The function `ruby::method (VALUE recv, ID id, int n, ...)`. -/
def method {W : Type} (vm : VM W) (recv : VALUE) (id : ID) (argv : List VALUE)
    (s : State W) : Except Exception VALUE × State W :=
  let arg : Arguments := { recv := recv, id := id, argv := argv }
  let r := call_with_protect (method_wrap vm) arg s
  if r.2.1 ≠ 0 then
    let e := Exception.ctor Exception.default_msg
    let e := e.backtrace vm r.2.2
    (.error e, r.2.2)
  else (.ok r.1, r.2.2)

/-- The function `ruby::vm_method (VALUE recv, ID id, int n, va_list ar)`. -/
def vm_method {W : Type} (vm : VM W) (recv : VALUE) (id : ID) (argv : List VALUE)
    (s : State W) : Except Exception VALUE × State W :=
  let arg : Arguments := { recv := recv, id := id, argv := argv }
  let r := call_with_protect (method_wrap vm) arg s
  if r.2.1 ≠ 0 then
    let e := Exception.ctor Exception.default_msg
    let e := e.backtrace vm r.2.2
    (.error e, r.2.2)
  else (.ok r.1, r.2.2)

/-- The function `ruby::require_protect`. -/
def require_protect {W : Type} (vm : VM W) (filename : String) (w : W) : Outcome × W :=
  match vm.rb_require w filename with
  | (.ok _, w1) => (.ok Qnil, w1)
  | (.error exc, w1) => (.error exc, w1)

/-- The function `ruby::call_function`. -/
def call_function {W : Type} (vm : VM W) (method : String) (argv : List VALUE)
    (s : State W) : Bool × State W :=
  match vm_method vm Qnil (rb_intern method) argv s with
  | (.ok ret, s1) => (ret.toBool, s1)
  | (.error e, s1) =>
    let s2 := { s1 with stdout := s1.stdout ++ (e.what ++ "\n") }
    (Qfalse.toBool, s2)

/-- The function `ruby::require`. -/
def require {W : Type} (vm : VM W) (filename : String) (s : State W) :
    Except Exception Unit × State W :=
  let r := call_with_protect (require_protect vm) filename s
  if r.2.1 ≠ 0 then
    let strm := "error loading " ++ filename ++ ".rb"
    let e := Exception.ctor (some strm)
    let e := e.backtrace vm r.2.2
    (.error e, r.2.2)
  else (.ok (), r.2.2)

/-- The function `ruby::load`. -/
def load {W : Type} (vm : VM W) (filename : String) (anonymous : Int) (s : State W) :
    Except Exception Unit × State W :=
  let r := perform_with_gvl (load_with_gvl vm filename anonymous) s
  if r.1 ≠ 0 then
    let e := Exception.ctor Exception.default_msg
    let e := e.backtrace vm r.2
    (.error e, r.2)
  else (.ok (), r.2)

/-! ## Module and class instantiation -/

/-- The struct `NewArguments`. -/
structure NewArguments where
  class_name : String
  argv : List VALUE

/-- The function `ruby::create_object_protect`. -/
def create_object_protect {W : Type} (vm : VM W) (a : NewArguments) (w : W) : Outcome × W :=
  match vm.rb_path2class w a.class_name with
  | (.error exc, w1) => (.error exc, w1)
  | (.ok class_name, w1) => vm.rb_class_new_instance w1 a.argv class_name

/-- The function `ruby::create_object`. -/
def create_object {W : Type} (vm : VM W) (class_name : String) (argv : List VALUE)
    (s : State W) : Except Exception VALUE × State W :=
  let arg : NewArguments := { class_name := class_name, argv := argv }
  let r := call_with_protect (create_object_protect vm) arg s
  if r.2.1 ≠ 0 then
    let strm := "Error creating Ruby class \x27" ++ class_name ++ "\x27"
    let e := Exception.ctor (some strm)
    let e := e.backtrace vm r.2.2
    (.error e, r.2.2)
  else (.ok r.1, r.2.2)

/-! ## The class `ruby::Object` -/

/-- The class `ruby::Object`: the wrapped value and the class name. -/
structure Object where
  self : VALUE
  _class_name : String
  deriving DecidableEq, Repr

/-- The constructor `Object::Object (const char* name, int n, ...)`. -/
def Object.ctor {W : Type} (vm : VM W) (name : String) (argv : List VALUE) (s : State W) :
    Except Exception Object × State W :=
  match create_object vm name argv s with
  | (.error e, s1) => (.error e, s1)
  | (.ok self, s1) =>
    let s2 := register_object self s1
    (.ok { self := self, _class_name := name }, s2)

/-- The destructor `Object::~Object`. -/
def Object.dtor {W : Type} (vm : VM W) (o : Object) (s : State W) : State W :=
  free_object vm o.self s

/-- The accessor `Object::class_name`. -/
def Object.class_name (o : Object) : String := o._class_name

/-- The member `Object::method (const char* name, int n, ...)`. -/
def Object.method {W : Type} (vm : VM W) (o : Object) (name : String) (argv : List VALUE)
    (s : State W) : Except Exception VALUE × State W :=
  let arg : Arguments := { recv := o.self, id := rb_intern name, argv := argv }
  let r := call_with_protect (method_wrap vm) arg s
  if r.2.1 ≠ 0 then
    let msg := "ruby::Object::method() invoking " ++ o._class_name ++ "::" ++ name ++ "()"
    let e := Exception.ctor (some msg)
    let e := e.backtrace vm r.2.2
    (.error e, r.2.2)
  else (.ok r.1, r.2.2)

/-! ## Lines of a text -/

/-- The lines of a text: the pieces between newline characters. -/
def splitLines : List Char → List (List Char)
  | [] => [[]]
  | c :: cs =>
    if c = '\n' then [] :: splitLines cs
    else
      match splitLines cs with
      | [] => [[c]]
      | l :: ls => (c :: l) :: ls

/-- The lines of a text that begin with the marker `"From    : "`. -/
def fromLines (text : String) : List String :=
  ((splitLines text.data).filter (fun l => "From    : ".data.isPrefixOf l)).map String.mk

/-! ## A concrete VM for the examples -/

/-- A small VM.  Its state counts the objects allocated so far.  Word 10 is
the class String, 11 the class Bar (its constructor raises RuntimeError
"bad arg"), 12 the class EmptyClass; words 900 to 905 are exception objects;
words from 1000 up to 4999 are String instances with empty content (equal to
each other under `==`), words from 5000 are EmptyClass instances; every other
pair of distinct words is unequal under `==`. -/
def demoVM : VM Nat where
  eq := fun _ a b =>
    match a, b with
    | ref x, ref y => decide (1000 ≤ x ∧ x < 5000 ∧ 1000 ≤ y ∧ y < 5000)
    | _, _ => false
  class_path := fun _ a =>
    if a = 900 then "ArgumentError"
    else if a = 901 then "RuntimeError"
    else if a = 902 then "NoMethodError"
    else if a = 903 then "LoadError"
    else if a = 904 then "RuntimeError"
    else if a = 905 then "NoMethodError"
    else if 1000 ≤ a ∧ a < 5000 then "String"
    else if 5000 ≤ a then "EmptyClass"
    else "Class"
  to_s := fun _ a =>
    if a = 900 then "undefined class/module"
    else if a = 901 then "bad arg"
    else if a = 902 then "undefined method missing_method"
    else if a = 903 then "cannot load such file -- nonexistent_file"
    else if a = 904 then "oops\nFrom    : nowhere"
    else if a = 905 then "undefined method fooo for nil\nDid you mean?  foo"
    else ""
  backtrace := fun _ v =>
    match v with
    | ref a =>
      if a = 901 then ["bar.rb:3:in initialize", "main.rb:1:in main"]
      else if a = 902 then ["main.rb:7:in main"]
      else if a = 904 then ["a.rb:1:in main"]
      else if a = 905 then ["main.rb:2:in run", "main.rb:9:in main"]
      else []
    | _ => []
  rb_path2class := fun w path =>
    if path = "String" then (.ok (ref 10), w)
    else if path = "Bar" then (.ok (ref 11), w)
    else if path = "EmptyClass" then (.ok (ref 12), w)
    else (.error (ref 900), w)
  rb_class_new_instance := fun w _ klass =>
    if klass = ref 10 then (.ok (ref (1000 + w)), w + 1)
    else if klass = ref 11 then (.error (ref 901), w)
    else if klass = ref 12 then (.ok (ref (5000 + w)), w + 1)
    else (.error (ref 900), w)
  rb_funcall2 := fun w _ id _ =>
    if id = "missing_method" then (.error (ref 902), w)
    else if id = "fail" then (.error (ref 901), w)
    else (.ok Qnil, w)
  rb_require := fun w name =>
    if name = "nonexistent_file" then (.error (ref 903), w) else (.ok Qtrue, w)
  rb_load := fun w name _ =>
    if name = "nonexistent_file" then (.error (ref 903), w) else (.ok Qtrue, w)

/-- The process before `startup`: nothing allocated, `$!` is nil, no registry. -/
def demoState : State Nat :=
  { world := 0, errinfo := Qnil, has_gvl := true, singleton := false, objects := [],
    running := false, vm_log := [], stdout := "" }

/-! ## Protected invocation: what the callers observe -/

theorem call_with_protect_eq_rb_protect {W α : Type} (func : α → W → Outcome × W) (arg : α)
    (s : State W) : call_with_protect func arg s = rb_protect func arg s := by
  unfold call_with_protect rb_thread_call_with_gvl protect_with_gvl rb_protect
  cases s with
  | mk world errinfo has_gvl singleton objects running vm_log stdout =>
    cases has_gvl
    · simp only [Bool.false_eq_true, if_false]
      rcases h : func arg world with ⟨o, w⟩
      cases o <;> rfl
    · simp only [if_true]

theorem call_with_protect_ok {W α : Type} (func : α → W → Outcome × W) (arg : α)
    (s : State W) (v : VALUE) (w : W) (h : func arg s.world = (.ok v, w)) :
    call_with_protect func arg s = (v, 0, { s with world := w }) := by
  rw [call_with_protect_eq_rb_protect]; simp [rb_protect, h]

theorem call_with_protect_error {W α : Type} (func : α → W → Outcome × W) (arg : α)
    (s : State W) (exc : VALUE) (w : W) (h : func arg s.world = (.error exc, w)) :
    call_with_protect func arg s = (Qnil, TAG_RAISE, { s with world := w, errinfo := exc }) := by
  rw [call_with_protect_eq_rb_protect]; simp [rb_protect, h]

theorem perform_with_gvl_load {W : Type} (vm : VM W) (filename : String) (anonymous : Int)
    (s : State W) :
    perform_with_gvl (load_with_gvl vm filename anonymous) s
      = rb_load_protect vm filename anonymous s := by
  unfold perform_with_gvl rb_thread_call_with_gvl load_with_gvl rb_load_protect
  cases s with
  | mk world errinfo has_gvl singleton objects running vm_log stdout =>
    cases has_gvl
    · simp only [Bool.false_eq_true, if_false]
      rcases h : vm.rb_load world filename anonymous with ⟨o, w⟩
      cases o <;> rfl
    · rfl

/-! ## Failed construction registers nothing -/

theorem create_object_error {W : Type} (vm : VM W) (class_name : String) (argv : List VALUE)
    (s : State W)
    (herr : (call_with_protect (create_object_protect vm)
              { class_name := class_name, argv := argv } s).2.1 ≠ 0) :
    ∃ e, create_object vm class_name argv s
      = (.error e, (call_with_protect (create_object_protect vm)
              { class_name := class_name, argv := argv } s).2.2) := by
  unfold create_object
  simp only [herr, ne_eq, not_false_eq_true, if_true]
  exact ⟨_, rfl⟩

theorem rb_protect_registry {W α : Type} (func : α → W → Outcome × W) (arg : α)
    (s : State W) :
    (rb_protect func arg s).2.2.objects = s.objects
    ∧ (rb_protect func arg s).2.2.singleton = s.singleton
    ∧ (rb_protect func arg s).2.2.vm_log = s.vm_log := by
  unfold rb_protect
  rcases h : func arg s.world with ⟨o, w⟩
  cases o <;> simp

/-- C2: when the protected call made by `create_object` reports a non-zero
error flag, the `Object` constructor fails with an exception and the registry
(the array content, the singleton and the GC-root calls) is what it was before
the constructor was entered. -/
theorem Object_ctor_failure_registers_nothing {W : Type} (vm : VM W) (name : String)
    (argv : List VALUE) (s : State W)
    (herr : (call_with_protect (create_object_protect vm)
              { class_name := name, argv := argv } s).2.1 ≠ 0) :
    (∃ e, (Object.ctor vm name argv s).1 = .error e)
    ∧ (Object.ctor vm name argv s).2.objects = s.objects
    ∧ (Object.ctor vm name argv s).2.singleton = s.singleton
    ∧ (Object.ctor vm name argv s).2.vm_log = s.vm_log := by
  obtain ⟨e, he⟩ := create_object_error vm name argv s herr
  have hreg := rb_protect_registry (create_object_protect vm)
    ({ class_name := name, argv := argv } : NewArguments) s
  rw [← call_with_protect_eq_rb_protect] at hreg
  unfold Object.ctor
  rw [he]
  exact ⟨⟨e, rfl⟩, hreg⟩

/-- Witness for C2: constructing `Bar`, whose constructor raises, on the
concrete VM. -/
theorem Object_ctor_failure_registers_nothing_witness :
    (∃ e, (Object.ctor demoVM "Bar" [Qnil] demoState).1 = .error e)
    ∧ (Object.ctor demoVM "Bar" [Qnil] demoState).2.objects = demoState.objects
    ∧ (Object.ctor demoVM "Bar" [Qnil] demoState).2.singleton = demoState.singleton
    ∧ (Object.ctor demoVM "Bar" [Qnil] demoState).2.vm_log = demoState.vm_log :=
  Object_ctor_failure_registers_nothing demoVM "Bar" [Qnil] demoState (by decide)

/-! ## What `Exception::backtrace` records -/

theorem backtrace_what {W : Type} (vm : VM W) (s : State W) (e : Exception) :
    (e.backtrace vm s).what = e.what := by
  unfold Exception.backtrace Exception.what
  dsimp only
  split <;> rfl

theorem backtrace_type {W : Type} (vm : VM W) (s : State W) (e : Exception) :
    (e.backtrace vm s).type = rb_class_path_of vm s.world s.errinfo := by
  unfold Exception.backtrace Exception.type
  dsimp only
  split <;> rfl

theorem what_ctor (msg : Option String) : (Exception.ctor msg).what = msg.getD "" := by
  cases msg <;> rfl

/-! ## `require` -/

/-- C5: when the protected call around the require primitive reports an
error, `require` fails with an exception whose `what()` is exactly
"error loading " followed by the name and ".rb"; when it reports none,
`require` returns normally. -/
theorem require_error_message {W : Type} (vm : VM W) (filename : String) (s : State W) :
    ((call_with_protect (require_protect vm) filename s).2.1 ≠ 0 →
      ∃ e, (require vm filename s).1 = .error e
        ∧ e.what = "error loading " ++ filename ++ ".rb")
    ∧ ((call_with_protect (require_protect vm) filename s).2.1 = 0 →
      (require vm filename s).1 = .ok ()) := by
  constructor
  · intro herr
    refine ⟨((Exception.ctor (some ("error loading " ++ filename ++ ".rb"))).backtrace vm
      (call_with_protect (require_protect vm) filename s).2.2), ?_, ?_⟩
    · unfold require
      simp only [herr, ne_eq, not_false_eq_true, if_true]
    · rw [backtrace_what, what_ctor]; rfl
  · intro hok
    unfold require
    simp only [hok, ne_eq, not_true_eq_false, if_false]

/-- Witness for C5: `require ("nonexistent_file")` on the concrete VM, where
the VM's own message is "cannot load such file -- nonexistent_file". -/
theorem require_error_message_witness :
    ∃ e, (require demoVM "nonexistent_file" demoState).1 = .error e
      ∧ e.what = "error loading nonexistent_file.rb" := by
  obtain ⟨e, h1, h2⟩ := (require_error_message demoVM "nonexistent_file" demoState).1 (by decide)
  exact ⟨e, h1, h2.trans (by decide)⟩

/-! ## The type of a translated exception -/

theorem method_raises {W : Type} (vm : VM W) (recv : VALUE) (id : ID) (argv : List VALUE)
    (s : State W) (exc : VALUE) (w : W)
    (h : vm.rb_funcall2 s.world recv id argv = (.error exc, w)) :
    call_with_protect (method_wrap vm) ({ recv := recv, id := id, argv := argv } : Arguments) s
      = (Qnil, TAG_RAISE, { s with world := w, errinfo := exc }) :=
  call_with_protect_error (method_wrap vm) _ s exc w h

theorem rb_load_protect_raises {W : Type} (vm : VM W) (filename : String) (anonymous : Int)
    (s : State W) (exc : VALUE) (w : W)
    (h : vm.rb_load s.world filename anonymous = (.error exc, w)) :
    perform_with_gvl (load_with_gvl vm filename anonymous) s
      = (TAG_RAISE, { s with world := w, errinfo := exc }) := by
  rw [perform_with_gvl_load]; simp [rb_load_protect, h]

/-- C8: whichever bridge function trapped the error (`Object::method`,
`ruby::method`, `vm_method`, `create_object`, `require`, `load`), the thrown
record has `type()` equal to the class path of the raised exception, with
nothing prepended or appended. -/
theorem thrown_type_is_class_path {W : Type} (vm : VM W) (s : State W) (exc : VALUE) (w : W) :
    (∀ o name argv, vm.rb_funcall2 s.world o.self (rb_intern name) argv = (.error exc, w) →
      ∃ e, (Object.method vm o name argv s).1 = .error e
        ∧ e.type = rb_class_path_of vm w exc)
    ∧ (∀ recv id argv, vm.rb_funcall2 s.world recv id argv = (.error exc, w) →
      ∃ e, (method vm recv id argv s).1 = .error e ∧ e.type = rb_class_path_of vm w exc)
    ∧ (∀ recv id argv, vm.rb_funcall2 s.world recv id argv = (.error exc, w) →
      ∃ e, (vm_method vm recv id argv s).1 = .error e ∧ e.type = rb_class_path_of vm w exc)
    ∧ (∀ class_name argv,
      create_object_protect vm { class_name := class_name, argv := argv } s.world
        = (.error exc, w) →
      ∃ e, (create_object vm class_name argv s).1 = .error e
        ∧ e.type = rb_class_path_of vm w exc)
    ∧ (∀ filename, vm.rb_require s.world filename = (.error exc, w) →
      ∃ e, (require vm filename s).1 = .error e ∧ e.type = rb_class_path_of vm w exc)
    ∧ (∀ filename anonymous, vm.rb_load s.world filename anonymous = (.error exc, w) →
      ∃ e, (load vm filename anonymous s).1 = .error e
        ∧ e.type = rb_class_path_of vm w exc) := by
  have htag : TAG_RAISE ≠ 0 := by decide
  refine ⟨?_, ?_, ?_, ?_, ?_, ?_⟩
  · intro o name argv h
    unfold Object.method
    simp only [method_raises vm _ _ _ s exc w h, htag, ne_eq, not_false_eq_true, if_true]
    exact ⟨_, rfl, backtrace_type _ _ _⟩
  · intro recv id argv h
    unfold method
    simp only [method_raises vm _ _ _ s exc w h, htag, ne_eq, not_false_eq_true, if_true]
    exact ⟨_, rfl, backtrace_type _ _ _⟩
  · intro recv id argv h
    unfold vm_method
    simp only [method_raises vm _ _ _ s exc w h, htag, ne_eq, not_false_eq_true, if_true]
    exact ⟨_, rfl, backtrace_type _ _ _⟩
  · intro class_name argv h
    unfold create_object
    simp only [call_with_protect_error (create_object_protect vm) _ s exc w h, htag, ne_eq,
      not_false_eq_true, if_true]
    exact ⟨_, rfl, backtrace_type _ _ _⟩
  · intro filename h
    have hp : require_protect vm filename s.world = (.error exc, w) := by
      simp [require_protect, h]
    unfold require
    simp only [call_with_protect_error (require_protect vm) _ s exc w hp, htag, ne_eq,
      not_false_eq_true, if_true]
    exact ⟨_, rfl, backtrace_type _ _ _⟩
  · intro filename anonymous h
    unfold load
    simp only [rb_load_protect_raises vm _ _ s exc w h, htag, ne_eq, not_false_eq_true,
      if_true]
    exact ⟨_, rfl, backtrace_type _ _ _⟩

/-- Witness for C8: calling a missing method through `Object::method` on the
concrete VM throws a record whose `type()` is "NoMethodError". -/
theorem thrown_type_is_class_path_witness :
    ∃ e, (Object.method demoVM { self := ref 5000, _class_name := "EmptyClass" }
            "missing_method" [] demoState).1 = .error e
      ∧ e.type = "NoMethodError" :=
  (thrown_type_is_class_path demoVM demoState (ref 902) 0).1
    { self := ref 5000, _class_name := "EmptyClass" } "missing_method" [] rfl

/-! ## The text of the stack dump -/

theorem foldl_from_data (frames : List String) (bt : String) :
    (frames.foldl (fun bt f => bt ++ ("From    : " ++ f ++ "\n")) bt).data
      = bt.data ++ (frames.map (fun f => "From    : ".data ++ f.data ++ ['\n'])).flatten := by
  induction frames generalizing bt with
  | nil => simp
  | cons f fs ih =>
    rw [List.foldl_cons, ih]
    simp [String.data_append, List.append_assoc]

theorem backtrace_stackdump_data {W : Type} (vm : VM W) (s : State W) (e : Exception) :
    (e.backtrace vm s).stackdump.data
      = "Type    : ".data ++ (rb_class_path_of vm s.world s.errinfo).data
        ++ '\n' :: ((rb_class_path_of vm s.world s.errinfo).data ++ "Message : ".data
        ++ (rb_obj_as_string vm s.world s.errinfo).data
        ++ '\n' :: (if s.errinfo = Qnil then []
            else ((vm.backtrace s.world s.errinfo).map
              (fun f => "From    : ".data ++ f.data ++ ['\n'])).flatten)) := by
  unfold Exception.backtrace Exception.stackdump rb_gv_get_errinfo NIL_P
  by_cases hnil : s.errinfo = Qnil
  · simp [hnil, String.data_append, List.append_assoc]
  · simp [hnil, foldl_from_data, String.data_append, List.append_assoc]

/-! ## The message of a failed construction -/

/-- Counterexample to C4 as stated: `Bar`'s constructor raises RuntimeError
"bad arg", and `what()` of the thrown record is the text built by
`create_object`, which does not contain "bad arg". -/
theorem what_lacks_vm_message :
    ∃ e, (Object.ctor demoVM "Bar" [Qnil] demoState).1 = .error e
      ∧ rb_obj_as_string demoVM 0 (ref 901) = "bad arg"
      ∧ e.what = "Error creating Ruby class \x27Bar\x27"
      ∧ ¬ ("bad arg".data <:+: e.what.data) :=
  ⟨_, rfl, by decide, by decide, by decide⟩

/-- C4 as amended: when instantiation raises an exception with string
representation `m`, the constructor fails with a record whose `what()` is
"Error creating Ruby class " followed by the quoted class name, and whose
`stackdump()` contains "Message : " followed by `m` and a newline. -/
theorem Object_ctor_failure_record {W : Type} (vm : VM W) (name : String)
    (argv : List VALUE) (s : State W) (exc : VALUE) (w : W)
    (h : create_object_protect vm { class_name := name, argv := argv } s.world
          = (.error exc, w)) :
    ∃ e, (Object.ctor vm name argv s).1 = .error e
      ∧ e.what = "Error creating Ruby class \x27" ++ name ++ "\x27"
      ∧ ("Message : " ++ rb_obj_as_string vm w exc ++ "\n").data <:+: e.stackdump.data := by
  have htag : TAG_RAISE ≠ 0 := by decide
  unfold Object.ctor create_object
  simp only [call_with_protect_error (create_object_protect vm) _ s exc w h, htag, ne_eq,
    not_false_eq_true, if_true]
  refine ⟨_, rfl, ?_, ?_⟩
  · rw [backtrace_what, what_ctor]; rfl
  · rw [backtrace_stackdump_data]
    simp only [String.data_append, List.append_assoc]
    refine ⟨"Type    : ".data ++ ((rb_class_path_of vm w exc).data ++
      '\n' :: (rb_class_path_of vm w exc).data), ?_, ?_⟩
    · exact (if exc = Qnil then []
        else ((vm.backtrace w exc).map
          (fun f => "From    : ".data ++ f.data ++ ['\n'])).flatten)
    · simp [List.append_assoc]

/-- Witness for the amended C4: `Bar` on the concrete VM. -/
theorem Object_ctor_failure_record_witness :
    ∃ e, (Object.ctor demoVM "Bar" [Qnil] demoState).1 = .error e
      ∧ e.what = "Error creating Ruby class \x27" ++ "Bar" ++ "\x27"
      ∧ ("Message : " ++ rb_obj_as_string demoVM 0 (ref 901) ++ "\n").data
          <:+: e.stackdump.data :=
  Object_ctor_failure_record demoVM "Bar" [Qnil] demoState (ref 901) 0 rfl

/-! ## Translation when `$!` is nil -/

/-- Counterexample to C7 as stated: with `$!` nil, `type()` and `stackdump()`
of the record are not empty after `backtrace()`. -/
theorem nil_errinfo_fills_type_and_dump :
    demoState.errinfo = Qnil
    ∧ ((Exception.ctor none).backtrace demoVM demoState).type ≠ ""
    ∧ ((Exception.ctor none).backtrace demoVM demoState).stackdump ≠ "" := by
  decide

/-- C7 as amended: when `$!` is nil, `backtrace()` returns a record whose
`type()` is "NilClass", whose `stackdump()` is the two header lines
"Type    : NilClass" and "NilClassMessage : " with no "From" line, and whose
`what()` is still the constructor-supplied message (empty when none was
supplied). -/
theorem backtrace_nil {W : Type} (vm : VM W) (s : State W) (msg : Option String)
    (hnil : s.errinfo = Qnil) :
    ((Exception.ctor msg).backtrace vm s).type = "NilClass"
    ∧ ((Exception.ctor msg).backtrace vm s).stackdump
        = "Type    : NilClass\nNilClassMessage : \n"
    ∧ ((Exception.ctor msg).backtrace vm s).what = msg.getD "" := by
  refine ⟨?_, ?_, ?_⟩
  · rw [backtrace_type, hnil]; rfl
  · unfold Exception.backtrace Exception.stackdump rb_gv_get_errinfo
    simp only [hnil, NIL_P, rb_class_path_of, rb_obj_as_string, decide_True,
      Bool.true_eq_false, if_false]
    decide
  · rw [backtrace_what, what_ctor]

/-- Witness for the amended C7: the concrete state before any error, with a
constructor-supplied message. -/
theorem backtrace_nil_witness :
    ((Exception.ctor (some "context")).backtrace demoVM demoState).type = "NilClass"
    ∧ ((Exception.ctor (some "context")).backtrace demoVM demoState).stackdump
        = "Type    : NilClass\nNilClassMessage : \n"
    ∧ ((Exception.ctor (some "context")).backtrace demoVM demoState).what
        = (some "context").getD "" :=
  backtrace_nil demoVM demoState (some "context") rfl

/-! ## The "From" lines of the stack dump -/

theorem splitLines_ne_nil (x : List Char) : splitLines x ≠ [] := by
  cases x with
  | nil => simp [splitLines]
  | cons c cs =>
    unfold splitLines
    split
    · simp
    · split <;> simp

theorem splitLines_append (a b : List Char) :
    splitLines (a ++ '\n' :: b) = splitLines a ++ splitLines b := by
  induction a with
  | nil => simp [splitLines]
  | cons c a ih =>
    by_cases hc : c = '\n'
    · simp [splitLines, hc, ih]
    · rcases hsa : splitLines a with _ | ⟨l, ls⟩
      · exact absurd hsa (splitLines_ne_nil a)
      · simp [splitLines, hc, ih, hsa]

theorem splitLines_no_newline (x : List Char) : ∀ l ∈ splitLines x, '\n' ∉ l := by
  induction x with
  | nil => simp [splitLines]
  | cons c cs ih =>
    by_cases hc : c = '\n'
    · intro l hl
      simp only [splitLines, hc, if_true, List.mem_cons] at hl
      rcases hl with rfl | hl
      · simp
      · exact ih l hl
    · rcases hsa : splitLines cs with _ | ⟨l0, ls⟩
      · exact absurd hsa (splitLines_ne_nil cs)
      · intro l hl
        rw [hsa] at ih
        simp only [splitLines, hc, if_false, hsa, List.mem_cons] at hl
        rcases hl with rfl | hl
        · intro hmem
          rcases List.mem_cons.1 hmem with h | h
          · exact hc h.symm
          · exact ih l0 (List.mem_cons_self _ _) h
        · exact ih l (List.mem_cons_of_mem _ hl)

theorem splitLines_single (l : List Char) (h : '\n' ∉ l) : splitLines l = [l] := by
  induction l with
  | nil => rfl
  | cons c l ih =>
    have hc : c ≠ '\n' := fun hc => h (by simp [hc])
    have hl : '\n' ∉ l := fun hl => h (List.mem_cons_of_mem _ hl)
    simp [splitLines, hc, ih hl]

theorem fromLines_no_newline (text : String) : ∀ l ∈ fromLines text, '\n' ∉ l.data := by
  intro l hl
  unfold fromLines at hl
  obtain ⟨cs, hcs, rfl⟩ := List.mem_map.1 hl
  exact splitLines_no_newline _ cs (List.mem_filter.1 hcs).1

theorem splitLines_frames (p : List Char) (hp : '\n' ∉ p) (frames : List String)
    (hf : ∀ f ∈ frames, '\n' ∉ f.data) :
    splitLines ((frames.map (fun f => p ++ f.data ++ ['\n'])).flatten)
      = frames.map (fun f => p ++ f.data) ++ [[]] := by
  induction frames with
  | nil => simp [splitLines]
  | cons f fs ih =>
    have hfs : ∀ g ∈ fs, '\n' ∉ g.data := fun g hg => hf g (List.mem_cons_of_mem _ hg)
    have hstep : ((f :: fs).map (fun f => p ++ f.data ++ ['\n'])).flatten
        = (p ++ f.data) ++ '\n' :: (fs.map (fun f => p ++ f.data ++ ['\n'])).flatten := by
      simp [List.append_assoc]
    have hline : splitLines (p ++ f.data) = [p ++ f.data] := by
      apply splitLines_single
      intro hmem
      rcases List.mem_append.1 hmem with h1 | h1
      · exact hp h1
      · exact hf f (List.mem_cons_self _ _) h1
    rw [hstep, splitLines_append, hline, ih hfs]
    rfl

theorem filter_from_frames (p : List Char) (frames : List String) :
    ((frames.map (fun (f : String) => p ++ f.data) ++ [[]]).filter (fun l => p.isPrefixOf l))
      = frames.map (fun (f : String) => p ++ f.data) ++ (if p = [] then [[]] else []) := by
  induction frames with
  | nil =>
    cases p with
    | nil => rfl
    | cons a p => rfl
  | cons f fs ih =>
    have hp : p.isPrefixOf (p ++ f.data) = true :=
      List.isPrefixOf_iff_prefix.2 (List.prefix_append _ _)
    simp only [List.map_cons, List.cons_append, List.filter_cons, hp, if_true]
    rw [ih]

theorem fromLines_frames (frames : List String) (hf : ∀ f ∈ frames, '\n' ∉ f.data) :
    ((splitLines ((frames.map (fun f => "From    : ".data ++ f.data ++ ['\n'])).flatten)).filter
        (fun l => "From    : ".data.isPrefixOf l)).map String.mk
      = frames.map (fun f => "From    : " ++ f) := by
  have hF : '\n' ∉ "From    : ".data := by decide
  have hFne : "From    : ".data ≠ [] := by decide
  rw [splitLines_frames _ hF _ hf, filter_from_frames, if_neg hFne, List.append_nil,
    List.map_map]
  rfl

theorem fromLines_stackdump {W : Type} (vm : VM W) (s : State W) (e : Exception)
    (hnn : s.errinfo ≠ Qnil) :
    fromLines (e.backtrace vm s).stackdump
      = fromLines ("Type    : " ++ rb_class_path_of vm s.world s.errinfo ++ "\n"
          ++ rb_class_path_of vm s.world s.errinfo ++ "Message : "
          ++ rb_obj_as_string vm s.world s.errinfo)
        ++ ((splitLines (((vm.backtrace s.world s.errinfo).map
              (fun f => "From    : ".data ++ f.data ++ ['\n'])).flatten)).filter
            (fun l => "From    : ".data.isPrefixOf l)).map String.mk := by
  have hdata : (e.backtrace vm s).stackdump.data
      = ("Type    : " ++ rb_class_path_of vm s.world s.errinfo ++ "\n"
          ++ rb_class_path_of vm s.world s.errinfo ++ "Message : "
          ++ rb_obj_as_string vm s.world s.errinfo).data
        ++ '\n' :: ((vm.backtrace s.world s.errinfo).map
              (fun f => "From    : ".data ++ f.data ++ ['\n'])).flatten := by
    rw [backtrace_stackdump_data, if_neg hnn]
    simp only [String.data_append, List.append_assoc]
    rfl
  unfold fromLines
  rw [hdata, splitLines_append, List.filter_append, List.map_append]

/-- Counterexample to C6 as stated: the current exception has one frame and a
message whose second line begins with "From    : "; the stack dump then has
two lines beginning with "From    : ", the first of which is no frame. -/
theorem from_lines_message_counterexample :
    demoVM.backtrace 0 (ref 904) = ["a.rb:1:in main"]
    ∧ fromLines ((Exception.ctor none).backtrace demoVM
        { demoState with errinfo := ref 904 }).stackdump
      = ["From    : nowhere", "From    : a.rb:1:in main"]
    ∧ fromLines ((Exception.ctor none).backtrace demoVM
        { demoState with errinfo := ref 904 }).stackdump
      ≠ (demoVM.backtrace 0 (ref 904)).map (fun f => "From    : " ++ f) := by
  decide

/-- C6 as amended: for a non-nil current exception with class path `t`,
string representation `m` and frames `f_1 .. f_k`, the lines of the stack dump
that begin with "From    : " are exactly "From    : " followed by each frame,
in the VM's order, if and only if no frame contains a newline and no line of
the header written before the frames ("Type    : " `t`, a newline, then `t`
"Message : " `m`) begins with "From    : ". -/
theorem from_lines_of_backtrace {W : Type} (vm : VM W) (s : State W) (e : Exception)
    (hnn : s.errinfo ≠ Qnil) :
    fromLines (e.backtrace vm s).stackdump
        = (vm.backtrace s.world s.errinfo).map (fun f => "From    : " ++ f)
    ↔ ((∀ f ∈ vm.backtrace s.world s.errinfo, '\n' ∉ f.data)
      ∧ fromLines ("Type    : " ++ rb_class_path_of vm s.world s.errinfo ++ "\n"
          ++ rb_class_path_of vm s.world s.errinfo ++ "Message : "
          ++ rb_obj_as_string vm s.world s.errinfo) = []) := by
  constructor
  · intro heq
    have hf : ∀ f ∈ vm.backtrace s.world s.errinfo, '\n' ∉ f.data := by
      intro f hfm hnl
      have hmem : "From    : " ++ f ∈ fromLines (e.backtrace vm s).stackdump := by
        rw [heq]
        exact List.mem_map.2 ⟨f, hfm, rfl⟩
      apply fromLines_no_newline _ _ hmem
      rw [String.data_append]
      exact List.mem_append_right _ hnl
    refine ⟨hf, ?_⟩
    rw [fromLines_stackdump vm s e hnn, fromLines_frames _ hf] at heq
    exact List.append_left_eq_self.1 heq
  · rintro ⟨hf, hhead⟩
    rw [fromLines_stackdump vm s e hnn, fromLines_frames _ hf, hhead, List.nil_append]

/-- Witness for the amended C6: a NoMethodError whose message has two lines,
"undefined method fooo for nil" and "Did you mean?  foo", and two frames on
the concrete VM; the stack dump has exactly the two frame lines. -/
theorem from_lines_of_backtrace_witness :
    fromLines ((Exception.ctor none).backtrace demoVM
        { demoState with errinfo := ref 905 }).stackdump
      = ["From    : main.rb:2:in run", "From    : main.rb:9:in main"] :=
  (from_lines_of_backtrace demoVM { demoState with errinfo := ref 905 } (Exception.ctor none)
    (by decide)).2 ⟨by decide, by decide⟩

/-! ## Removing a handle from the registry -/

theorem free_object_objects {W : Type} (vm : VM W) (h : VALUE) (s : State W)
    (hs : s.singleton = true) :
    (free_object vm h s).objects
      = s.objects.filter (fun e => !rb_equal vm s.world e h) := by
  simp [free_object, Objects.free_object, Objects.instance_, rb_ary_delete, hs]

theorem rb_equal_self {W : Type} (vm : VM W) (w : W) (a : VALUE) : rb_equal vm w a a = true := by
  simp [rb_equal]

/-- Counterexample to C3 as stated: with `h` registered twice, one
`free_object (h)` leaves no occurrence of `h`, whereas removing only the first
occurrence would leave one. -/
theorem free_object_twice_registered_counterexample :
    (free_object demoVM (ref 1)
        { demoState with singleton := true, objects := [ref 1, ref 2, ref 1] }).objects
      = [ref 2]
    ∧ List.erase [ref 1, ref 2, ref 1] (ref 1) = [ref 2, ref 1] := by
  decide

/-- C3 as amended: on an existing registry, `free_object (h)` removes every
occurrence of `h`, not only the first: afterwards `h` does not occur; the
result is a subsequence of the registry that keeps, in their order, all
entries not equal to `h`; and when no entry is equal to `h` the registry is
unchanged. -/
theorem free_object_removes_every_occurrence {W : Type} (vm : VM W) (h : VALUE)
    (s : State W) (hs : s.singleton = true) :
    h ∉ (free_object vm h s).objects
    ∧ (free_object vm h s).objects.Sublist s.objects
    ∧ (s.objects.filter (fun e => !rb_equal vm s.world e h)).Sublist
        (free_object vm h s).objects
    ∧ ((∀ e ∈ s.objects, rb_equal vm s.world e h = false) →
        (free_object vm h s).objects = s.objects) := by
  rw [free_object_objects vm h s hs]
  refine ⟨?_, List.filter_sublist _, List.Sublist.refl _, ?_⟩
  · intro hmem
    have := (List.mem_filter.1 hmem).2
    simp [rb_equal_self] at this
  · intro hall
    apply List.filter_eq_self.2
    intro e he
    simp [hall e he]

/-- Witness for the amended C3: the registry holding `ref 1` twice. -/
theorem free_object_removes_every_occurrence_witness :
    ref 1 ∉ (free_object demoVM (ref 1)
        { demoState with singleton := true, objects := [ref 1, ref 2, ref 1] }).objects :=
  (free_object_removes_every_occurrence demoVM (ref 1)
    { demoState with singleton := true, objects := [ref 1, ref 2, ref 1] } rfl).1

/-! ## Registry size after constructions and destructions -/

/-- C1 at the failing input: two `Object`s built from `String` with no
arguments wrap distinct values that are equal under the VM's `==`; after the
two constructions the registry holds both, and destroying the first one
empties it, although the second wrapper is still alive (N = 2, M = 1). -/
theorem registry_loses_equal_value :
    ∃ o1 s1 o2 s2,
      Object.ctor demoVM "String" [] demoState = (.ok o1, s1)
      ∧ Object.ctor demoVM "String" [] s1 = (.ok o2, s2)
      ∧ o1.self ≠ o2.self
      ∧ rb_equal demoVM s2.world o2.self o1.self = true
      ∧ s2.objects = [o1.self, o2.self]
      ∧ (Object.dtor demoVM o1 s2).objects = []
      ∧ (Object.dtor demoVM o1 s2).objects.length ≠ 2 - 1 :=
  ⟨_, _, _, _, rfl, rfl, by decide, by decide, by decide, by decide, by decide⟩

/-! ## `call_function` -/

theorem call_function_on_raise {W : Type} (vm : VM W) (name : String) (argv : List VALUE)
    (s : State W) (exc : VALUE) (w : W)
    (h : vm.rb_funcall2 s.world Qnil (rb_intern name) argv = (.error exc, w)) :
    (call_function vm name argv s).1 = false
    ∧ (call_function vm name argv s).2.stdout = s.stdout ++ "\n" := by
  have htag : TAG_RAISE ≠ 0 := by decide
  unfold call_function vm_method
  simp only [method_raises vm _ _ _ s exc w h, htag, ne_eq, not_false_eq_true, if_true]
  refine ⟨rfl, ?_⟩
  show s.stdout ++ (((Exception.ctor none).backtrace vm _).what ++ "\n") = s.stdout ++ "\n"
  rw [backtrace_what, what_ctor]
  rfl

/-- C9 at the failing input: the function `fail` raises RuntimeError
"bad arg"; `call_function` returns `false` without throwing, and what it
writes to standard output is an empty line, not the exception's message. -/
theorem call_function_prints_empty_line :
    demoVM.rb_funcall2 demoState.world Qnil (rb_intern "fail") [] = (.error (ref 901), 0)
    ∧ rb_obj_as_string demoVM 0 (ref 901) = "bad arg"
    ∧ (call_function demoVM "fail" [] demoState).1 = false
    ∧ (call_function demoVM "fail" [] demoState).2.stdout = "\n"
    ∧ (call_function demoVM "fail" [] demoState).2.stdout ≠ "bad arg\n" :=
  ⟨rfl, by decide, by decide, by decide, by decide⟩

/-! ## Lifecycle -/

theorem startup_when_running {W : Type} (script_name : String) (s : State W)
    (h : s.running = true) : startup script_name s = s := by
  simp [startup, h]

/-- C10 at the failing input: `shutdown` on a process that was never started
still calls `ruby_cleanup`; and after `startup`, a second `shutdown` calls
`ruby_cleanup` once more, so two calls do not leave the state that one call
leaves. -/
theorem shutdown_twice_cleans_up_twice :
    demoState.running = false
    ∧ (shutdown 0 demoState).vm_log = [VMCall.ruby_cleanup 0]
    ∧ (shutdown 0 (startup "main" demoState)).running = false
    ∧ (shutdown 0 (shutdown 0 (startup "main" demoState))).vm_log
        = (shutdown 0 (startup "main" demoState)).vm_log ++ [VMCall.ruby_cleanup 0]
    ∧ (shutdown 0 (shutdown 0 (startup "main" demoState))).vm_log
        ≠ (shutdown 0 (startup "main" demoState)).vm_log := by
  decide

end ruby
